import Mathlib

/-!
Verification of the NDVI retrieval pipeline (ndvi_request_final.py).

The script acquires an OAuth2 session, POSTs a processing request, saves the
response body to a tar archive, extracts it, computes mean/min/max NDVI
statistics over band 1 of the extracted raster (raw values divided by 10000),
and serializes the statistics to a JSON file.

Shallow embedding conventions:
  - raster samples and statistics are rationals (the scaled values are exact
    decimal fractions of the integer samples);
  - a raster band is a list of rows, each a list of samples;
  - fallible operations return Except; external collaborators (the token
    endpoint, the HTTP response to the POST, the result of opening the tar
    archive or the raster file, local write failures) are oracle parameters;
  - the local filesystem is a map from path to optional content;
  - log calls are recorded as structured entries carrying the same data the
    corresponding logging calls format into their messages.
-/

/-- Fixed path of the downloaded archive, from the configuration block. -/
def TAR_FILE : String := "retrieved_files.tar"

/-- Fixed extraction directory, from the configuration block. -/
def EXTRACT_PATH : String := "retrieved_files"

/-- Fixed path of the statistics output document, from the configuration block. -/
def JSON_FILE : String := "ndvi_statistics.json"

/-- Placeholder client id from the configuration block. -/
def CLIENT_ID : String := "<your_client_ID>"

/-- Placeholder client secret from the configuration block. -/
def CLIENT_SECRET : String := "<your_client_secret>"

/-- Structured log entries, one constructor per logging call site in the
source, carrying the data interpolated into the message. -/
inductive LogEntry where
  | oauthError : String → LogEntry
  | dataSaved : String → LogEntry
  | requestFailed : Nat → String → LogEntry
  | requestError : String → LogEntry
  | filesExtracted : List String → LogEntry
  | extractError : String → LogEntry
  | statsError : String → LogEntry
  | statsExported : String → LogEntry
  | jsonError : String → LogEntry
  | mainError : String → LogEntry
deriving DecidableEq

/-- The token endpoint collaborator: given client id and client secret it
either returns a bearer token or rejects with an error. -/
structure TokenEndpoint where
  respond : String → String → Except String String

/-- Outcome of get_oauth_session: how many network round trips to the token
endpoint were made, the session token or the re-raised exception, and the log. -/
structure OAuthResult where
  networkCalls : Nat
  outcome : Except String String
  log : List LogEntry

/-- Embedding of get_oauth_session. The source performs no validation of the
credentials: it builds the client and calls fetch_token, which contacts the
token endpoint (one network round trip, per the collaborator contract in the
spec). On any exception the source logs the error and re-raises. -/
def get_oauth_session (endpoint : TokenEndpoint) (client_id client_secret : String) :
    OAuthResult :=
  match endpoint.respond client_id client_secret with
  | Except.ok tok => { networkCalls := 1, outcome := Except.ok tok, log := [] }
  | Except.error e =>
      { networkCalls := 1, outcome := Except.error e,
        log := [LogEntry.oauthError e] }

/-- An HTTP response to the processing POST: status code, body bytes, body text. -/
structure HttpResponse where
  status_code : Nat
  content : List Nat
  text : String
deriving DecidableEq

/-- Outcome of the oauth.post call: a response, or a transport-level exception. -/
inductive PostResult where
  | ok : HttpResponse → PostResult
  | exn : String → PostResult
deriving DecidableEq

/-- Behavior of the local write of the response body. Opening the file in wb
mode truncates it before writing, so a failure of the write call itself leaves
an empty file, while a failure to open leaves the file unchanged. -/
inductive WriteBehavior where
  | ok : WriteBehavior
  | openFails : String → WriteBehavior
  | writeFails : String → WriteBehavior
deriving DecidableEq

/-- Local filesystem fragment holding byte files: path to optional content. -/
def FS : Type := String → Option (List Nat)

/-- Overwrite one file in a byte filesystem. -/
def fsWrite (fs : FS) (path : String) (content : List Nat) : FS :=
  fun p => if p = path then some content else fs p

/-- What a call of request_data produced: the returned boolean, the resulting
filesystem, and the log entries emitted during the call. -/
structure RequestOutcome where
  result : Bool
  fs : FS
  log : List LogEntry

/-- Embedding of request_data. On a response with status 200 the body is
written to TAR_FILE and True is returned; on any other status the error is
logged with the status code and response text and False is returned without
touching the file; any exception (transport failure during the POST, or a
failure while opening or writing the file) is caught, logged, and False is
returned. -/
def request_data (post : PostResult) (wb : WriteBehavior) (fs : FS) : RequestOutcome :=
  match post with
  | PostResult.exn e => { result := false, fs := fs, log := [LogEntry.requestError e] }
  | PostResult.ok r =>
      if r.status_code = 200 then
        match wb with
        | WriteBehavior.ok =>
            { result := true, fs := fsWrite fs TAR_FILE r.content,
              log := [LogEntry.dataSaved TAR_FILE] }
        | WriteBehavior.openFails e =>
            { result := false, fs := fs, log := [LogEntry.requestError e] }
        | WriteBehavior.writeFails e =>
            { result := false, fs := fsWrite fs TAR_FILE [],
              log := [LogEntry.requestError e] }
      else
        { result := false, fs := fs,
          log := [LogEntry.requestFailed r.status_code r.text] }

/-- Result of tarfile.open on the archive: the list of member names (each
split into path components), or an exception for a corrupt archive. -/
inductive TarOpen where
  | ok : List (List String) → TarOpen
  | exn : String → TarOpen

/-- Resolve a path component list the way the OS resolves it when a file is
materialized: single dots are dropped, a double dot pops the last component or,
at the top, counts one level above the working directory. The result is the
number of levels above the working directory paired with the components below
that point. -/
def normalizePath (p : List String) : Nat × List String :=
  p.foldl
    (fun acc c =>
      if c = "." then acc
      else if c = ".." then
        match acc with
        | (u, []) => (u + 1, [])
        | (u, l) => (u, l.dropLast)
      else (acc.1, acc.2 ++ [c]))
    (0, [])

/-- True when a resolved path lies inside the given destination directory. -/
def insideDest (dest : List String) (p : Nat × List String) : Bool :=
  p.1 == 0 && dest.isPrefixOf p.2

/-- Embedding of extract_tar_file. The source calls extractall with no
filtering or inspection of member names, so every member is materialized at
the join of the extraction directory and its (possibly dot-dotted) name; the
returned list holds the resolved path of every materialized file. A failure
to open or extract is logged and re-raised. -/
def extract_tar_file (tar : TarOpen) (extract_to : List String) :
    Except String (List (Nat × List String)) × List LogEntry :=
  match tar with
  | TarOpen.exn e => (Except.error e, [LogEntry.extractError e])
  | TarOpen.ok entries =>
      (Except.ok (entries.map (fun en => normalizePath (extract_to ++ en))),
       [LogEntry.filesExtracted extract_to])

/-- The three named NDVI statistics computed by the script. -/
structure NdviStats where
  mean_ndvi : ℚ
  min_ndvi : ℚ
  max_ndvi : ℚ
deriving DecidableEq

/-- Result of rasterio.open followed by read of band 1: the decoded band as a
list of rows, or an exception (missing file, missing band). -/
inductive RasterOpen where
  | ok : List (List ℚ) → RasterOpen
  | exn : String → RasterOpen

/-- Flatten a band into the list of all its samples, row by row. -/
def flattenBand (band : List (List ℚ)) : List ℚ :=
  band.flatten

/-- Divide every sample of the band by 10000, as the source does right after
reading band 1. -/
def scaleBand (band : List (List ℚ)) : List ℚ :=
  (flattenBand band).map (fun v => v / 10000)

/-- Message of the ValueError numpy raises when a min or max reduction is
applied to an array with no elements. -/
def emptyReductionMsg : String :=
  "zero-size array to reduction operation minimum which has no identity"

/-- Embedding of calculate_ndvi_statistics. Band 1 is read and divided by
10000; the arithmetic mean, the minimum, and the maximum of all scaled samples
are returned. An exception while opening or reading the raster is logged and
re-raised; on a band with no elements the min reduction raises, which is
likewise logged and re-raised. -/
def calculate_ndvi_statistics (src : RasterOpen) :
    Except String NdviStats × List LogEntry :=
  match src with
  | RasterOpen.exn e => (Except.error e, [LogEntry.statsError e])
  | RasterOpen.ok band =>
      match scaleBand band with
      | [] => (Except.error emptyReductionMsg, [LogEntry.statsError emptyReductionMsg])
      | x :: xs =>
          (Except.ok
            { mean_ndvi := (x :: xs).sum / ((x :: xs).length : ℚ),
              min_ndvi := xs.foldl min x,
              max_ndvi := xs.foldl max x },
           [])

/-- Structured JSON values, as far as this program needs them. -/
inductive Json where
  | num : ℚ → Json
  | str : String → Json
  | obj : List (String × Json) → Json

/-- The dictionary the source builds from the statistics and passes to
json.dump, with its three stable key names. -/
def statsToDict (s : NdviStats) : Json :=
  Json.obj
    [("mean_ndvi", Json.num s.mean_ndvi),
     ("min_ndvi", Json.num s.min_ndvi),
     ("max_ndvi", Json.num s.max_ndvi)]

/-- Local filesystem fragment holding JSON documents. -/
def JsonFS : Type := String → Option Json

/-- Embedding of save_to_json. The document is dumped to the given file,
overwriting it; a failure to open or write is logged and re-raised. -/
def save_to_json (openExn : Option String) (data : Json) (json_file : String)
    (fs : JsonFS) : Except String Unit × JsonFS × List LogEntry :=
  match openExn with
  | some e => (Except.error e, fs, [LogEntry.jsonError e])
  | none =>
      (Except.ok (),
       fun p => if p = json_file then some data else fs p,
       [LogEntry.statsExported json_file])

/-- Field lookup in a JSON object, as indexing the dict returned by json.load. -/
def Json.lookupKey : Json → String → Option Json
  | Json.obj fields, k => (fields.find? (fun kv => kv.1 == k)).map (fun kv => kv.2)
  | _, _ => none

/-- Re-read the statistics document and parse the three scalars back out. -/
def readStatsBack (fs : JsonFS) (path : String) : Option NdviStats :=
  match fs path with
  | none => none
  | some j =>
      match j.lookupKey "mean_ndvi", j.lookupKey "min_ndvi", j.lookupKey "max_ndvi" with
      | some (Json.num a), some (Json.num b), some (Json.num c) =>
          some { mean_ndvi := a, min_ndvi := b, max_ndvi := c }
      | _, _, _ => none

/-- The pipeline stages of main, in order. -/
inductive Stage where
  | session : Stage
  | request : Stage
  | extractTar : Stage
  | stats : Stage
  | write : Stage
deriving DecidableEq

/-- All external behavior one run of main can observe: the token endpoint, the
outcome of the POST, the behavior of the archive write, the results of opening
the archive and the raster, the behavior of the JSON write, and the initial
filesystems. -/
structure RunOracles where
  tokenEndpoint : TokenEndpoint
  post : PostResult
  writeTar : WriteBehavior
  tarOpen : TarOpen
  raster : RasterOpen
  jsonOpenExn : Option String
  tarFs : FS
  jsonFs : JsonFS

/-- Observable trace of one run of main: which stages ran, the statistics
document at JSON_FILE afterwards, the log, and the process exit code. -/
structure MainTrace where
  stagesRun : List Stage
  jsonWritten : Option Json
  log : List LogEntry
  exitCode : Nat

namespace Ndvi

/-- Embedding of main. Stages run in order; a False from request_data skips
the rest of the body, and any exception raised by a stage is caught by the
try of main, logged, and swallowed, so the interpreter always exits with
code 0. -/
def main (o : RunOracles) : MainTrace :=
  let auth := get_oauth_session o.tokenEndpoint CLIENT_ID CLIENT_SECRET
  match auth.outcome with
  | Except.error e =>
      { stagesRun := [Stage.session], jsonWritten := none,
        log := auth.log ++ [LogEntry.mainError e], exitCode := 0 }
  | Except.ok _ =>
      let rq := request_data o.post o.writeTar o.tarFs
      if rq.result then
        match extract_tar_file o.tarOpen [EXTRACT_PATH] with
        | (Except.error e, elog) =>
            { stagesRun := [Stage.session, Stage.request, Stage.extractTar],
              jsonWritten := none,
              log := auth.log ++ rq.log ++ elog ++ [LogEntry.mainError e],
              exitCode := 0 }
        | (Except.ok _, elog) =>
            match calculate_ndvi_statistics o.raster with
            | (Except.error e, clog) =>
                { stagesRun :=
                    [Stage.session, Stage.request, Stage.extractTar, Stage.stats],
                  jsonWritten := none,
                  log := auth.log ++ rq.log ++ elog ++ clog ++ [LogEntry.mainError e],
                  exitCode := 0 }
            | (Except.ok stats, clog) =>
                match save_to_json o.jsonOpenExn (statsToDict stats) JSON_FILE o.jsonFs with
                | (Except.error e, _, slog) =>
                    { stagesRun :=
                        [Stage.session, Stage.request, Stage.extractTar,
                         Stage.stats, Stage.write],
                      jsonWritten := none,
                      log := auth.log ++ rq.log ++ elog ++ clog ++ slog ++
                             [LogEntry.mainError e],
                      exitCode := 0 }
                | (Except.ok _, jfs, slog) =>
                    { stagesRun :=
                        [Stage.session, Stage.request, Stage.extractTar,
                         Stage.stats, Stage.write],
                      jsonWritten := jfs JSON_FILE,
                      log := auth.log ++ rq.log ++ elog ++ clog ++ slog,
                      exitCode := 0 }
      else
        { stagesRun := [Stage.session, Stage.request], jsonWritten := none,
          log := auth.log ++ rq.log, exitCode := 0 }

end Ndvi

/-- Which pipeline stage a log entry is attributed to, when it is one of the
stage-local diagnostics. -/
def stageOf : LogEntry → Option Stage
  | LogEntry.oauthError _ => some Stage.session
  | LogEntry.requestFailed _ _ => some Stage.request
  | LogEntry.requestError _ => some Stage.request
  | LogEntry.extractError _ => some Stage.extractTar
  | LogEntry.statsError _ => some Stage.stats
  | LogEntry.jsonError _ => some Stage.write
  | _ => none

/-- A token endpoint that rejects every credential pair. -/
def rejectingEndpoint : TokenEndpoint :=
  { respond := fun _ _ => Except.error "invalid_client" }

/-- A token endpoint that accepts every credential pair. -/
def acceptingEndpoint : TokenEndpoint :=
  { respond := fun _ _ => Except.ok "token" }

/-- A byte filesystem with no files. -/
def emptyFS : FS := fun _ => none

/-- A JSON filesystem with no files. -/
def emptyJsonFS : JsonFS := fun _ => none

/-- A run in which session acquisition is rejected by the token endpoint. -/
def failingRun : RunOracles :=
  { tokenEndpoint := rejectingEndpoint,
    post := PostResult.exn "connection refused",
    writeTar := WriteBehavior.ok,
    tarOpen := TarOpen.exn "not a tar",
    raster := RasterOpen.exn "no such file",
    jsonOpenExn := none,
    tarFs := emptyFS,
    jsonFs := emptyJsonFS }

/-- A run in which every stage succeeds. -/
def successfulRun : RunOracles :=
  { tokenEndpoint := acceptingEndpoint,
    post := PostResult.ok { status_code := 200, content := [1], text := "ok" },
    writeTar := WriteBehavior.ok,
    tarOpen := TarOpen.ok [["default.tif"]],
    raster := RasterOpen.ok [[5000, 6000], [7000, 8000]],
    jsonOpenExn := none,
    tarFs := emptyFS,
    jsonFs := emptyJsonFS }

/-- The left min fold over a list is a lower bound of every element. -/
theorem foldl_min_le (x : ℚ) (l : List ℚ) : ∀ y ∈ x :: l, l.foldl min x ≤ y := by
  induction l generalizing x with
  | nil =>
      intro y hy
      rcases List.mem_cons.mp hy with rfl | h
      · exact le_refl y
      · cases h
  | cons a t ih =>
      intro y hy
      simp only [List.foldl_cons]
      have hbase : t.foldl min (min x a) ≤ min x a :=
        ih (min x a) (min x a) (List.mem_cons_self _ _)
      rcases List.mem_cons.mp hy with rfl | h
      · exact le_trans hbase (min_le_left _ _)
      · rcases List.mem_cons.mp h with rfl | h2
        · exact le_trans hbase (min_le_right _ _)
        · exact ih (min x a) y (List.mem_cons_of_mem _ h2)

/-- The left max fold over a list is an upper bound of every element. -/
theorem le_foldl_max (x : ℚ) (l : List ℚ) : ∀ y ∈ x :: l, y ≤ l.foldl max x := by
  induction l generalizing x with
  | nil =>
      intro y hy
      rcases List.mem_cons.mp hy with rfl | h
      · exact le_refl y
      · cases h
  | cons a t ih =>
      intro y hy
      simp only [List.foldl_cons]
      have hbase : max x a ≤ t.foldl max (max x a) :=
        ih (max x a) (max x a) (List.mem_cons_self _ _)
      rcases List.mem_cons.mp hy with rfl | h
      · exact le_trans (le_max_left _ _) hbase
      · rcases List.mem_cons.mp h with rfl | h2
        · exact le_trans (le_max_right _ _) hbase
        · exact ih (max x a) y (List.mem_cons_of_mem _ h2)

/-- The arithmetic mean of a nonempty list lies between its min and its max. -/
theorem mean_between (x : ℚ) (xs : List ℚ) :
    xs.foldl min x ≤ (x :: xs).sum / ((x :: xs).length : ℚ) ∧
    (x :: xs).sum / ((x :: xs).length : ℚ) ≤ xs.foldl max x := by
  have hn : (0 : ℚ) < ((x :: xs).length : ℚ) := by
    exact_mod_cast Nat.succ_pos xs.length
  constructor
  · rw [le_div_iff₀ hn, mul_comm]
    have h := List.card_nsmul_le_sum (x :: xs) (xs.foldl min x) (foldl_min_le x xs)
    simpa [nsmul_eq_mul] using h
  · rw [div_le_iff₀ hn, mul_comm]
    have h := List.sum_le_card_nsmul (x :: xs) (xs.foldl max x) (le_foldl_max x xs)
    simpa [nsmul_eq_mul] using h

/-- A scaled band is empty exactly when the band itself has no samples. -/
theorem scaleBand_eq_nil (band : List (List ℚ)) :
    scaleBand band = [] ↔ flattenBand band = [] := by
  unfold scaleBand
  cases flattenBand band <;> simp

/-- Claim C1: on the 2 by 2 band [[5000, 6000], [7000, 8000]] with divisor
10000, calculate_ndvi_statistics returns exactly mean 0.65, min 0.5, max 0.8. -/
theorem claim_C1 :
    (calculate_ndvi_statistics (RasterOpen.ok [[5000, 6000], [7000, 8000]])).1 =
      Except.ok { mean_ndvi := 0.65, min_ndvi := 0.5, max_ndvi := 0.8 } := by
  have h : scaleBand [[5000, 6000], [7000, 8000]] = [1/2, 3/5, 7/10, 4/5] := by
    norm_num [scaleBand, flattenBand]
  simp only [calculate_ndvi_statistics, h, List.foldl, List.sum_cons, List.sum_nil,
    List.length_cons, List.length_nil, Except.ok.injEq, NdviStats.mk.injEq]
  norm_num [min_def, max_def]

/-- Claim C2: on every band with at least one sample, the returned statistics
satisfy min less or equal mean less or equal max; on a band with no samples
the computation fails with the empty reduction error. -/
theorem claim_C2 (band : List (List ℚ)) :
    (flattenBand band ≠ [] →
      ∃ s, (calculate_ndvi_statistics (RasterOpen.ok band)).1 = Except.ok s ∧
        s.min_ndvi ≤ s.mean_ndvi ∧ s.mean_ndvi ≤ s.max_ndvi) ∧
    (flattenBand band = [] →
      (calculate_ndvi_statistics (RasterOpen.ok band)).1 =
        Except.error emptyReductionMsg) := by
  constructor
  · intro hne
    cases h : scaleBand band with
    | nil => exact absurd ((scaleBand_eq_nil band).mp h) hne
    | cons x xs =>
        refine ⟨{ mean_ndvi := (x :: xs).sum / ((x :: xs).length : ℚ),
                  min_ndvi := xs.foldl min x,
                  max_ndvi := xs.foldl max x }, ?_, ?_, ?_⟩
        · simp [calculate_ndvi_statistics, h]
        · exact (mean_between x xs).1
        · exact (mean_between x xs).2
  · intro he
    have h : scaleBand band = [] := (scaleBand_eq_nil band).mpr he
    simp [calculate_ndvi_statistics, h]

/-- Witness for claim C2 at the concrete 2 by 2 band. -/
theorem claim_C2_witness :
    ∃ s, (calculate_ndvi_statistics (RasterOpen.ok [[5000, 6000], [7000, 8000]])).1 =
        Except.ok s ∧ s.min_ndvi ≤ s.mean_ndvi ∧ s.mean_ndvi ≤ s.max_ndvi :=
  (claim_C2 [[5000, 6000], [7000, 8000]]).1 (by decide)

/-- Claim C3, evaluated at the failing archive: extract_tar_file passes every
member name to extractall unfiltered, so the member named dot dot slash
evil.txt is materialized at evil.txt, outside the destination directory,
instead of being rejected. -/
theorem claim_C3_eval :
    (extract_tar_file (TarOpen.ok [["..", "evil.txt"]]) [EXTRACT_PATH]).1 =
      Except.ok [(0, ["evil.txt"])] ∧
    insideDest [EXTRACT_PATH] (0, ["evil.txt"]) = false := by
  constructor
  · rfl
  · rfl

/-- Claim C4: on a response with any status other than 200, request_data
returns False, logs a diagnostic carrying the status code and the response
text, and leaves the filesystem, in particular the archive file, untouched. -/
theorem claim_C4 (r : HttpResponse) (wb : WriteBehavior) (fs : FS)
    (h : r.status_code ≠ 200) :
    (request_data (PostResult.ok r) wb fs).result = false ∧
    (request_data (PostResult.ok r) wb fs).fs = fs ∧
    LogEntry.requestFailed r.status_code r.text ∈
      (request_data (PostResult.ok r) wb fs).log := by
  simp [request_data, h]

/-- Witness for claim C4 at a concrete 404 response. -/
theorem claim_C4_witness :
    (request_data (PostResult.ok { status_code := 404, content := [], text := "err" })
        WriteBehavior.ok emptyFS).result = false ∧
    (request_data (PostResult.ok { status_code := 404, content := [], text := "err" })
        WriteBehavior.ok emptyFS).fs = emptyFS ∧
    LogEntry.requestFailed 404 "err" ∈
      (request_data (PostResult.ok { status_code := 404, content := [], text := "err" })
        WriteBehavior.ok emptyFS).log :=
  claim_C4 { status_code := 404, content := [], text := "err" }
    WriteBehavior.ok emptyFS (by decide)

/-- Counterexample to claim C5: a successful call of request_data on a 200
response whose body is empty leaves an existing but empty archive file, so the
file being present and non-empty is not equivalent to the call having
succeeded. -/
theorem claim_C5_counterexample :
    (request_data (PostResult.ok { status_code := 200, content := [], text := "" })
        WriteBehavior.ok emptyFS).result = true ∧
    (request_data (PostResult.ok { status_code := 200, content := [], text := "" })
        WriteBehavior.ok emptyFS).fs TAR_FILE = some [] ∧
    ¬ ∃ c, (request_data (PostResult.ok { status_code := 200, content := [], text := "" })
        WriteBehavior.ok emptyFS).fs TAR_FILE = some c ∧ c ≠ [] := by
  refine ⟨rfl, ?_, ?_⟩
  · simp [request_data, fsWrite]
  · rintro ⟨c, hc, hne⟩
    have : some c = some ([] : List Nat) := by
      rw [← hc]
      simp [request_data, fsWrite]
    exact hne (by simpa using this.symm) 

/-- Claim C5, amended: after a call of request_data on a received response,
success leaves the archive file holding exactly the response body, which may
be empty, while failure leaves the filesystem unchanged except that a write
failure after the truncating open leaves the archive file empty. -/
theorem claim_C5_amended (r : HttpResponse) (wb : WriteBehavior) (fs : FS) :
    ((request_data (PostResult.ok r) wb fs).result = true →
      (request_data (PostResult.ok r) wb fs).fs TAR_FILE = some r.content) ∧
    ((request_data (PostResult.ok r) wb fs).result = false →
      (request_data (PostResult.ok r) wb fs).fs = fs ∨
      (request_data (PostResult.ok r) wb fs).fs TAR_FILE = some []) := by
  by_cases h : r.status_code = 200
  · cases wb with
    | ok =>
        constructor
        · intro _
          simp [request_data, h, fsWrite]
        · intro hfalse
          simp [request_data, h] at hfalse
    | openFails e =>
        constructor
        · intro htrue
          simp [request_data, h] at htrue
        · intro _
          left
          simp [request_data, h]
    | writeFails e =>
        constructor
        · intro htrue
          simp [request_data, h] at htrue
        · intro _
          right
          simp [request_data, h, fsWrite]
  · constructor
    · intro htrue
      simp [request_data, h] at htrue
    · intro _
      left
      simp [request_data, h]

/-- Witness for the amended claim C5 at a concrete 200 response with body
bytes one and two. -/
theorem claim_C5_amended_witness :
    (request_data (PostResult.ok { status_code := 200, content := [1, 2], text := "" })
        WriteBehavior.ok emptyFS).fs TAR_FILE = some [1, 2] :=
  (claim_C5_amended { status_code := 200, content := [1, 2], text := "" }
      WriteBehavior.ok emptyFS).1 rfl

/-- Counterexample to claim C6: with both credentials empty and a token
endpoint that rejects them, get_oauth_session still makes its one network
round trip to the token endpoint before failing, so it does not fail before a
network call is attempted, and the failure is the re-raised endpoint error
rather than a dedicated authentication error raised locally. -/
theorem claim_C6_counterexample :
    (get_oauth_session rejectingEndpoint "" "").networkCalls = 1 ∧
    ¬ (get_oauth_session rejectingEndpoint "" "").networkCalls = 0 := by
  constructor
  · rfl
  · intro h
    simp [get_oauth_session, rejectingEndpoint] at h

/-- Claim C6, amended: with either credential empty, get_oauth_session
performs no local validation and issues the token request anyway; when the
endpoint rejects the credentials, the error is logged and re-raised after
that single network round trip and no session is returned. -/
theorem claim_C6_amended (endpoint : TokenEndpoint) (cid cs e : String)
    (_hempty : cid = "" ∨ cs = "")
    (h : endpoint.respond cid cs = Except.error e) :
    (get_oauth_session endpoint cid cs).networkCalls = 1 ∧
    (get_oauth_session endpoint cid cs).outcome = Except.error e ∧
    LogEntry.oauthError e ∈ (get_oauth_session endpoint cid cs).log := by
  simp [get_oauth_session, h]

/-- Witness for the amended claim C6 at empty credentials and the rejecting
endpoint. -/
theorem claim_C6_amended_witness :
    (get_oauth_session rejectingEndpoint "" "").networkCalls = 1 ∧
    (get_oauth_session rejectingEndpoint "" "").outcome =
      Except.error "invalid_client" ∧
    LogEntry.oauthError "invalid_client" ∈
      (get_oauth_session rejectingEndpoint "" "").log :=
  claim_C6_amended rejectingEndpoint "" "" "invalid_client" (Or.inl rfl) rfl

/-- Claim C8: writing any statistics value with save_to_json and then
re-reading and parsing the destination document reproduces the same three
scalar values. -/
theorem claim_C8 (s : NdviStats) (fs : JsonFS) (path : String) :
    (save_to_json none (statsToDict s) path fs).1 = Except.ok () ∧
    readStatsBack (save_to_json none (statsToDict s) path fs).2.1 path = some s := by
  constructor
  · rfl
  · have h1 : (save_to_json none (statsToDict s) path fs).2.1 path =
        some (statsToDict s) := by
      simp [save_to_json]
    simp only [readStatsBack, h1]
    rfl

/-- Claim C10: request_data is total over exceptions, returning False both on
a transport failure during the POST and on a failure to open or write the
archive file, with the exception logged; by contrast extract_tar_file,
calculate_ndvi_statistics, and save_to_json log their exception and re-raise
it as an error. -/
theorem claim_C10 :
    (∀ e wb fs, (request_data (PostResult.exn e) wb fs).result = false ∧
      LogEntry.requestError e ∈ (request_data (PostResult.exn e) wb fs).log) ∧
    (∀ r e fs, (request_data (PostResult.ok r) (WriteBehavior.openFails e) fs).result
        = false ∧
      (request_data (PostResult.ok r) (WriteBehavior.writeFails e) fs).result
        = false) ∧
    (∀ e dir, (extract_tar_file (TarOpen.exn e) dir).1 = Except.error e ∧
      LogEntry.extractError e ∈ (extract_tar_file (TarOpen.exn e) dir).2) ∧
    (∀ e, (calculate_ndvi_statistics (RasterOpen.exn e)).1 = Except.error e ∧
      LogEntry.statsError e ∈ (calculate_ndvi_statistics (RasterOpen.exn e)).2) ∧
    (∀ e d p fs, (save_to_json (some e) d p fs).1 = Except.error e ∧
      LogEntry.jsonError e ∈ (save_to_json (some e) d p fs).2.2) := by
  refine ⟨?_, ?_, ?_, ?_, ?_⟩
  · intro e wb fs
    exact ⟨rfl, by simp [request_data]⟩
  · intro r e fs
    constructor
    · by_cases h : r.status_code = 200 <;> simp [request_data, h]
    · by_cases h : r.status_code = 200 <;> simp [request_data, h]
  · intro e dir
    exact ⟨rfl, by simp [extract_tar_file]⟩
  · intro e
    exact ⟨rfl, by simp [calculate_ndvi_statistics]⟩
  · intro e d p fs
    exact ⟨rfl, by simp [save_to_json]⟩

/-- Claim C7: in every run of main, a failing stage halts the pipeline: an
authentication failure stops everything after session acquisition, a False
from request_data prevents the statistics stage from running, an extraction
or statistics error prevents every later stage, and the statistics document
is written only when session acquisition, retrieval, extraction, statistics
computation, and the final write all succeeded. -/
theorem claim_C7 (o : RunOracles) :
    ((Ndvi.main o).jsonWritten ≠ none →
      (∃ t, (get_oauth_session o.tokenEndpoint CLIENT_ID CLIENT_SECRET).outcome =
        Except.ok t) ∧
      (request_data o.post o.writeTar o.tarFs).result = true ∧
      (∃ ps, (extract_tar_file o.tarOpen [EXTRACT_PATH]).1 = Except.ok ps) ∧
      (∃ s, (calculate_ndvi_statistics o.raster).1 = Except.ok s) ∧
      o.jsonOpenExn = none) ∧
    ((request_data o.post o.writeTar o.tarFs).result = false →
      Stage.stats ∉ (Ndvi.main o).stagesRun ∧ (Ndvi.main o).jsonWritten = none) ∧
    (∀ e, (get_oauth_session o.tokenEndpoint CLIENT_ID CLIENT_SECRET).outcome =
        Except.error e →
      (Ndvi.main o).stagesRun = [Stage.session] ∧ (Ndvi.main o).jsonWritten = none) ∧
    (∀ e, (extract_tar_file o.tarOpen [EXTRACT_PATH]).1 = Except.error e →
      Stage.stats ∉ (Ndvi.main o).stagesRun ∧ (Ndvi.main o).jsonWritten = none) ∧
    (∀ e, (calculate_ndvi_statistics o.raster).1 = Except.error e →
      Stage.write ∉ (Ndvi.main o).stagesRun ∧ (Ndvi.main o).jsonWritten = none) := by
  obtain ⟨ep, post, wb, tar, ras, jx, tfs, jfs⟩ := o
  cases hresp : ep.respond CLIENT_ID CLIENT_SECRET with
  | error e =>
      refine ⟨?_, ?_, ?_, ?_, ?_⟩ <;>
        simp [Ndvi.main, get_oauth_session, hresp]
  | ok t =>
      cases post with
      | exn e =>
          refine ⟨?_, ?_, ?_, ?_, ?_⟩ <;>
            simp [Ndvi.main, get_oauth_session, request_data, hresp]
      | ok r =>
          by_cases h200 : r.status_code = 200
          · cases wb with
            | openFails e =>
                refine ⟨?_, ?_, ?_, ?_, ?_⟩ <;>
                  simp [Ndvi.main, get_oauth_session, request_data, hresp, h200]
            | writeFails e =>
                refine ⟨?_, ?_, ?_, ?_, ?_⟩ <;>
                  simp [Ndvi.main, get_oauth_session, request_data, hresp, h200]
            | ok =>
                cases tar with
                | exn e =>
                    refine ⟨?_, ?_, ?_, ?_, ?_⟩ <;>
                      simp [Ndvi.main, get_oauth_session, request_data,
                        extract_tar_file, hresp, h200]
                | ok entries =>
                    cases ras with
                    | exn e =>
                        refine ⟨?_, ?_, ?_, ?_, ?_⟩ <;>
                          simp [Ndvi.main, get_oauth_session, request_data,
                            extract_tar_file, calculate_ndvi_statistics,
                            hresp, h200]
                    | ok band =>
                        cases hsc : scaleBand band with
                        | nil =>
                            refine ⟨?_, ?_, ?_, ?_, ?_⟩ <;>
                              simp [Ndvi.main, get_oauth_session, request_data,
                                extract_tar_file, calculate_ndvi_statistics,
                                hresp, h200, hsc]
                        | cons x xs =>
                            cases jx with
                            | some e =>
                                refine ⟨?_, ?_, ?_, ?_, ?_⟩ <;>
                                  simp [Ndvi.main, get_oauth_session, request_data,
                                    extract_tar_file, calculate_ndvi_statistics,
                                    save_to_json, hresp, h200, hsc]
                            | none =>
                                refine ⟨?_, ?_, ?_, ?_, ?_⟩ <;>
                                  simp [Ndvi.main, get_oauth_session, request_data,
                                    extract_tar_file, calculate_ndvi_statistics,
                                    save_to_json, hresp, h200, hsc]
          · refine ⟨?_, ?_, ?_, ?_, ?_⟩ <;>
              simp [Ndvi.main, get_oauth_session, request_data, hresp, h200]

/-- Witness for claim C7 at the fully successful concrete run. -/
theorem claim_C7_witness :
    (∃ t, (get_oauth_session successfulRun.tokenEndpoint CLIENT_ID CLIENT_SECRET).outcome
        = Except.ok t) ∧
    (request_data successfulRun.post successfulRun.writeTar successfulRun.tarFs).result
        = true ∧
    (∃ ps, (extract_tar_file successfulRun.tarOpen [EXTRACT_PATH]).1 = Except.ok ps) ∧
    (∃ s, (calculate_ndvi_statistics successfulRun.raster).1 = Except.ok s) ∧
    successfulRun.jsonOpenExn = none :=
  (claim_C7 successfulRun).1 (by
    simp [Ndvi.main, successfulRun, acceptingEndpoint, emptyFS, emptyJsonFS,
      get_oauth_session, request_data, extract_tar_file, calculate_ndvi_statistics,
      save_to_json, scaleBand, flattenBand])

/-- Counterexample to claim C9: in the concrete run whose session acquisition
is rejected, a stage fails and a diagnostic is logged, yet the process ends
with exit code 0, exactly the indication a fully successful run produces, so
it does not terminate with a non-zero-equivalent failure indication. -/
theorem claim_C9_counterexample :
    (Ndvi.main failingRun).jsonWritten = none ∧
    LogEntry.oauthError "invalid_client" ∈ (Ndvi.main failingRun).log ∧
    (Ndvi.main failingRun).exitCode = 0 ∧
    (Ndvi.main successfulRun).exitCode = 0 := by
  refine ⟨?_, ?_, ?_, ?_⟩
  · simp [Ndvi.main, failingRun, rejectingEndpoint, get_oauth_session]
  · simp [Ndvi.main, failingRun, rejectingEndpoint, get_oauth_session]
  · simp [Ndvi.main, failingRun, rejectingEndpoint, get_oauth_session]
  · simp [Ndvi.main, successfulRun, acceptingEndpoint, emptyFS, emptyJsonFS,
      get_oauth_session, request_data, extract_tar_file, calculate_ndvi_statistics,
      save_to_json, scaleBand, flattenBand]

/-- Claim C9, amended: in every run in which some stage fails, main logs a
diagnostic attributed to the stage at which the run halted, identifying the
failure, but the process still terminates with exit code 0, the same
indication as a successful run, because main catches every exception and the
interpreter then exits normally. -/
theorem claim_C9_amended (o : RunOracles) :
    (Ndvi.main o).exitCode = 0 ∧
    ((Ndvi.main o).jsonWritten = none →
      ∃ entry s, entry ∈ (Ndvi.main o).log ∧ stageOf entry = some s ∧
        (Ndvi.main o).stagesRun.getLast? = some s) := by
  obtain ⟨ep, post, wb, tar, ras, jx, tfs, jfs⟩ := o
  cases hresp : ep.respond CLIENT_ID CLIENT_SECRET with
  | error e =>
      refine ⟨by simp [Ndvi.main, get_oauth_session, hresp], ?_⟩
      intro _
      refine ⟨LogEntry.oauthError e, Stage.session, ?_, rfl, ?_⟩
      · simp [Ndvi.main, get_oauth_session, hresp]
      · simp [Ndvi.main, get_oauth_session, hresp]
  | ok t =>
      cases post with
      | exn e =>
          refine ⟨by simp [Ndvi.main, get_oauth_session, request_data, hresp], ?_⟩
          intro _
          refine ⟨LogEntry.requestError e, Stage.request, ?_, rfl, ?_⟩
          · simp [Ndvi.main, get_oauth_session, request_data, hresp]
          · simp [Ndvi.main, get_oauth_session, request_data, hresp]
      | ok r =>
          by_cases h200 : r.status_code = 200
          · cases wb with
            | openFails e =>
                refine ⟨by simp [Ndvi.main, get_oauth_session, request_data,
                  hresp, h200], ?_⟩
                intro _
                refine ⟨LogEntry.requestError e, Stage.request, ?_, rfl, ?_⟩
                · simp [Ndvi.main, get_oauth_session, request_data, hresp, h200]
                · simp [Ndvi.main, get_oauth_session, request_data, hresp, h200]
            | writeFails e =>
                refine ⟨by simp [Ndvi.main, get_oauth_session, request_data,
                  hresp, h200], ?_⟩
                intro _
                refine ⟨LogEntry.requestError e, Stage.request, ?_, rfl, ?_⟩
                · simp [Ndvi.main, get_oauth_session, request_data, hresp, h200]
                · simp [Ndvi.main, get_oauth_session, request_data, hresp, h200]
            | ok =>
                cases tar with
                | exn e =>
                    refine ⟨by simp [Ndvi.main, get_oauth_session, request_data,
                      extract_tar_file, hresp, h200], ?_⟩
                    intro _
                    refine ⟨LogEntry.extractError e, Stage.extractTar, ?_, rfl, ?_⟩
                    · simp [Ndvi.main, get_oauth_session, request_data,
                        extract_tar_file, hresp, h200]
                    · simp [Ndvi.main, get_oauth_session, request_data,
                        extract_tar_file, hresp, h200]
                | ok entries =>
                    cases ras with
                    | exn e =>
                        refine ⟨by simp [Ndvi.main, get_oauth_session, request_data,
                          extract_tar_file, calculate_ndvi_statistics, hresp, h200],
                          ?_⟩
                        intro _
                        refine ⟨LogEntry.statsError e, Stage.stats, ?_, rfl, ?_⟩
                        · simp [Ndvi.main, get_oauth_session, request_data,
                            extract_tar_file, calculate_ndvi_statistics, hresp, h200]
                        · simp [Ndvi.main, get_oauth_session, request_data,
                            extract_tar_file, calculate_ndvi_statistics, hresp, h200]
                    | ok band =>
                        cases hsc : scaleBand band with
                        | nil =>
                            refine ⟨by simp [Ndvi.main, get_oauth_session,
                              request_data, extract_tar_file,
                              calculate_ndvi_statistics, hresp, h200, hsc], ?_⟩
                            intro _
                            refine ⟨LogEntry.statsError emptyReductionMsg,
                              Stage.stats, ?_, rfl, ?_⟩
                            · simp [Ndvi.main, get_oauth_session, request_data,
                                extract_tar_file, calculate_ndvi_statistics,
                                hresp, h200, hsc]
                            · simp [Ndvi.main, get_oauth_session, request_data,
                                extract_tar_file, calculate_ndvi_statistics,
                                hresp, h200, hsc]
                        | cons x xs =>
                            cases jx with
                            | some e =>
                                refine ⟨by simp [Ndvi.main, get_oauth_session,
                                  request_data, extract_tar_file,
                                  calculate_ndvi_statistics, save_to_json,
                                  hresp, h200, hsc], ?_⟩
                                intro _
                                refine ⟨LogEntry.jsonError e, Stage.write, ?_, rfl, ?_⟩
                                · simp [Ndvi.main, get_oauth_session, request_data,
                                    extract_tar_file, calculate_ndvi_statistics,
                                    save_to_json, hresp, h200, hsc]
                                · simp [Ndvi.main, get_oauth_session, request_data,
                                    extract_tar_file, calculate_ndvi_statistics,
                                    save_to_json, hresp, h200, hsc]
                            | none =>
                                refine ⟨by simp [Ndvi.main, get_oauth_session,
                                  request_data, extract_tar_file,
                                  calculate_ndvi_statistics, save_to_json,
                                  hresp, h200, hsc], ?_⟩
                                intro hnone
                                exact absurd hnone (by
                                  simp [Ndvi.main, get_oauth_session, request_data,
                                    extract_tar_file, calculate_ndvi_statistics,
                                    save_to_json, hresp, h200, hsc])
          · refine ⟨by simp [Ndvi.main, get_oauth_session, request_data,
              hresp, h200], ?_⟩
            intro _
            refine ⟨LogEntry.requestFailed r.status_code r.text, Stage.request,
              ?_, rfl, ?_⟩
            · simp [Ndvi.main, get_oauth_session, request_data, hresp, h200]
            · simp [Ndvi.main, get_oauth_session, request_data, hresp, h200]

/-- Witness for the amended claim C9 at the concrete run whose session
acquisition is rejected. -/
theorem claim_C9_amended_witness :
    ∃ entry s, entry ∈ (Ndvi.main failingRun).log ∧ stageOf entry = some s ∧
      (Ndvi.main failingRun).stagesRun.getLast? = some s :=
  (claim_C9_amended failingRun).2 (by
    simp [Ndvi.main, failingRun, rejectingEndpoint, get_oauth_session])

/-- Witness for claim C8 at the concrete statistics record of the 2 by 2 band. -/
theorem claim_C8_witness :
    (save_to_json none
      (statsToDict { mean_ndvi := 0.65, min_ndvi := 0.5, max_ndvi := 0.8 })
      JSON_FILE emptyJsonFS).1 = Except.ok () ∧
    readStatsBack
      (save_to_json none
        (statsToDict { mean_ndvi := 0.65, min_ndvi := 0.5, max_ndvi := 0.8 })
        JSON_FILE emptyJsonFS).2.1 JSON_FILE =
      some { mean_ndvi := 0.65, min_ndvi := 0.5, max_ndvi := 0.8 } :=
  claim_C8 { mean_ndvi := 0.65, min_ndvi := 0.5, max_ndvi := 0.8 } emptyJsonFS JSON_FILE
